import Mathlib

/-!
Verification of the entity-synchronization and batched-dispatch engine of the
`hydraulic-engine` repository (files `utils/tools_sensorthings.py` and
`utils/tools_api.py`), as a shallow embedding in Lean 4.

Modelling conventions:
* Python dicts with string keys become insertion-ordered association lists
  (`List (String × _)`); `{**m, k: v}` becomes `dictSet m k v` (replace the
  key's value in place, else append at the end), matching CPython semantics.
* Geometry payloads (GeoJSON dicts compared with `!=`) become the inductive
  `Geom` with decidable structural equality; `Geom.empty` stands for the empty
  dict `{}` used as the default of `old_location.get('location', {})`.
* The mutable `request_id_counter` (a one-element Python list updated in
  place) is threaded explicitly as a `Nat`; the `things_cache` dict, which
  Python could mutate in place, is threaded in and out of every function that
  receives it, so that "the cache is never mutated" is a provable statement.
* Raised exceptions and `None` results of the HTTP layer become `Option`.
* Desired Things are constructed by the callers with exactly one Location, so
  the access `thing_data['Locations'][0]['location']` is modelled by a single
  `location : Geom` field; the datastream fields that the code copies
  verbatim (name, unit, sensor, observations, ...) are collapsed into one
  opaque `payload : String` field next to the `Thing` key it rewrites.
-/

namespace HydraulicEngine

/-- Geometry payload of a Location, compared structurally (Python dict `!=`).
`empty` is the empty dict `{}`. -/
inductive Geom where
  | empty : Geom
  | point (x y : Int) : Geom
  | line (pts : List (Int × Int)) : Geom
  | raw (s : String) : Geom
deriving DecidableEq, Repr

/-- A Python dict from string keys to scalar values, insertion-ordered. -/
abbrev PropMap := List (String × String)

/-- `dictSet m k v` models the dict literal `{**m, k: v}`: if `k` is already a
key it keeps its position and gets the new value, otherwise `(k, v)` is
appended at the end. -/
def dictSet {α : Type} : List (String × α) → String → α → List (String × α)
  | [], k, v => [(k, v)]
  | (k0, v0) :: rest, k, v =>
    if k0 = k then (k, v) :: rest else (k0, v0) :: dictSet rest k v

/-- A desired Datastream descriptor.  `payload` stands for the fields the code
copies verbatim via `ds.copy()`; `thing` is the `'Thing'` key (an `@iot.id`
reference), absent in the desired data and set by the reconciler. -/
structure Datastream where
  payload : String
  thing : Option String
deriving DecidableEq, Repr

/-- A desired entity (`thing_data`): name, the geometry of its single
Location, its properties and its Datastream children. -/
structure Thing where
  name : String
  location : Geom
  properties : PropMap
  datastreams : List Datastream
deriving DecidableEq, Repr

/-- One element of a cache entry's `'Locations'` list: the `'@iot.id'` key and
the `'location'` geometry (`none` when the key is absent). -/
structure CachedLocation where
  iotId : String
  geom : Option Geom
deriving DecidableEq, Repr

/-- A cache entry as built by `get_all_things_with_locations`: remote id,
last-known properties, last-known Locations. -/
structure CacheEntry where
  id : String
  properties : PropMap
  locations : List CachedLocation
deriving DecidableEq, Repr

/-- The things cache: a Python dict from Thing name to cache entry. -/
abbrev Cache := List (String × CacheEntry)

/-- One Thing as returned by the bulk fetch `get_entities('Things',
expand='Locations')`: `'name'`, `'@iot.id'`, `'properties'` (default `{}`)
and `'Locations'` (default `[]`). -/
structure FetchedThing where
  name : String
  iotId : String
  properties : PropMap
  locations : List CachedLocation
deriving DecidableEq, Repr

/-- The body of a batch operation, one tagged variant per dict shape the code
builds. -/
inductive Body where
  | none : Body
  | props (p : PropMap) : Body
  | location (g : Geom) : Body
  | datastream (d : Datastream) : Body
  | thing (t : Thing) : Body
deriving DecidableEq, Repr

/-- One batch operation: `{'id': .., 'method': .., 'url': .., 'body': ..}`. -/
structure Request where
  id : String
  method : String
  url : String
  body : Body
deriving DecidableEq, Repr

/-- One per-operation response item of a batch response. -/
structure Resp where
  id : String
  status : Nat
  body : String
deriving DecidableEq, Repr

/-- `True` for a deep-insert create of a Thing (`POST` to `Things`). -/
def isThingCreate (r : Request) : Bool :=
  r.method == "post" && r.url == "Things"

/-- `True` for a Location patch operation (its body is a bare geometry). -/
def isLocationOp (r : Request) : Bool :=
  match r.body with
  | Body.location _ => true
  | _ => false

/-- `geometry_changed(old_location, new_location)` of
`tools_sensorthings.py`: `none` models a falsy (empty) old location dict;
otherwise the `'location'` value (default `{}`) is compared structurally. -/
def geometry_changed (old_location : Option CachedLocation) (new_location : Geom) : Bool :=
  match old_location with
  | Option.none => true
  | Option.some l => decide (l.geom.getD Geom.empty ≠ new_location)

/-- The `next_id` closure of `prepare_thing_requests`: increment the counter
and render it. Returns (fresh id, new counter). -/
def next_id (ctr : Nat) : String × Nat :=
  (toString (ctr + 1), ctr + 1)

/-- The location-patch block of `prepare_thing_requests`: if the cache entry
has Locations and the geometry changed, one `PATCH Locations(id)`. Returns
the emitted requests and the updated counter. -/
def patch_location_requests (cached : CacheEntry) (new_location : Geom) (ctr : Nat) :
    List Request × Nat :=
  match cached.locations with
  | [] => ([], ctr)
  | old_location :: _ =>
    if geometry_changed (Option.some old_location) new_location then
      ([{ id := (next_id ctr).1, method := "patch",
          url := "Locations(" ++ old_location.iotId ++ ")",
          body := Body.location new_location }], (next_id ctr).2)
    else ([], ctr)

/-- The datastream for-loop of `prepare_thing_requests`: one
`POST Datastreams` per child, with the `'Thing'` key set to the existing
remote id on a copy of the descriptor. -/
def post_datastream_requests (thing_id : String) :
    List Datastream → Nat → List Request × Nat
  | [], ctr => ([], ctr)
  | ds :: rest, ctr =>
    let r : Request :=
      { id := (next_id ctr).1, method := "post", url := "Datastreams",
        body := Body.datastream { ds with thing := Option.some thing_id } }
    let next := post_datastream_requests thing_id rest (next_id ctr).2
    (r :: next.1, next.2)

/-- `prepare_thing_requests(thing_data, things_cache, request_id_counter)`:
reconcile one desired Thing against the cache. Returns the operation group,
the thing id (or symbolic `$thing_<name>` reference), the counter and the
cache after the call. -/
def prepare_thing_requests (thing_data : Thing) (things_cache : Cache) (ctr : Nat) :
    List Request × String × Nat × Cache :=
  match things_cache.lookup thing_data.name with
  | Option.some cached =>
    let patch_thing : Request :=
      { id := (next_id ctr).1, method := "patch",
        url := "Things(" ++ cached.id ++ ")",
        body := Body.props (dictSet cached.properties "state" "operative") }
    let loc := patch_location_requests cached thing_data.location (next_id ctr).2
    let ds := post_datastream_requests cached.id thing_data.datastreams loc.2
    (patch_thing :: (loc.1 ++ ds.1), cached.id, ds.2, things_cache)
  | Option.none =>
    let thing_ref := "thing_" ++ thing_data.name
    let body := Body.thing
      { thing_data with properties := dictSet thing_data.properties "state" "operative" }
    ([{ id := thing_ref, method := "post", url := "Things", body := body }],
      "$" ++ thing_ref, ctr, things_cache)

/-- The preparation loop of `process_things_batch`: concatenate the operation
groups of all desired Things, threading counter and cache. -/
def prepare_all_requests (things_data : List Thing) (things_cache : Cache) (ctr : Nat) :
    List Request × Nat × Cache :=
  match things_data with
  | [] => ([], ctr, things_cache)
  | td :: rest =>
    let step := prepare_thing_requests td things_cache ctr
    let next := prepare_all_requests rest step.2.2.2 step.2.2.1
    (step.1 ++ next.1, next.2.1, next.2.2)

/-- The same loop keeping the per-Thing operation groups separate (one group
per desired Thing, in emission order). -/
def prepare_thing_groups (things_data : List Thing) (things_cache : Cache) (ctr : Nat) :
    List (List Request) × Nat × Cache :=
  match things_data with
  | [] => ([], ctr, things_cache)
  | td :: rest =>
    let step := prepare_thing_requests td things_cache ctr
    let next := prepare_thing_groups rest step.2.2.2 step.2.2.1
    (step.1 :: next.1, next.2.1, next.2.2)

/-- `get_all_things_with_locations`: build the cache from the bulk fetch.
`things = none` models a failed `get_entities` call (which returns `None`
after catching the exception); the `if things:` guard then leaves the cache
empty — a failure is indistinguishable from an empty store. -/
def get_all_things_with_locations (things : Option (List FetchedThing)) : Cache :=
  (things.getD []).foldl
    (fun cache t =>
      dictSet cache t.name
        { id := t.iotId, properties := t.properties, locations := t.locations })
    []

/-- The write traffic built by `process_things_batch`: when `things_cache` is
`none` the cache is fetched first (`fetched` being the bulk-fetch outcome),
then every desired Thing is reconciled from counter 0.  The resulting list is
handed to `batch_request` whenever it is non-empty. -/
def process_things_batch_requests (things_data : List Thing)
    (things_cache : Option Cache) (fetched : Option (List FetchedThing)) : List Request :=
  let cache :=
    match things_cache with
    | Option.some c => c
    | Option.none => get_all_things_with_locations fetched
  (prepare_all_requests things_data cache 0).1

/-- `mark_obsolete_things`: one `PATCH` flipping `state` to `obsolete` for
every cached Thing whose name is not in the active feature set, ids numbered
from 0.  Returns the requests and the cache after the call. -/
def mark_obsolete_requests (things_cache : Cache) (active_feature_ids : List String) :
    List Request × Cache :=
  let obsolete_things :=
    (things_cache.filter (fun p => !(active_feature_ids.contains p.1))).map
      (fun p => (p.2.id, p.1, p.2.properties))
  let batch_requests := obsolete_things.enum.map
    (fun q =>
      { id := toString q.1, method := "patch",
        url := "Things(" ++ q.2.1 ++ ")",
        body := Body.props (dictSet q.2.2.2 "state" "obsolete") : Request })
  (batch_requests, things_cache)

/-- Recursion worker for `chunkList`; the fuel argument (at least the length
of the list) makes the recursion structural, so that concrete instances
evaluate inside the kernel. -/
def chunkListAux {α : Type} : Nat → List α → Nat → List (List α)
  | _, [], _ => []
  | 0, _ :: _, _ => []
  | fuel + 1, x :: xs, sz =>
    if sz = 0 then []
    else (x :: xs).take sz :: chunkListAux fuel ((x :: xs).drop sz) sz

/-- The batch split of `batch_request`:
`batches = [batch_requests[i:i+batch_size] for i in range(0, total, batch_size)]`
(for `batch_size = 0` Python's `range` raises; the model returns no batches). -/
def chunkList {α : Type} (l : List α) (sz : Nat) : List (List α) :=
  chunkListAux l.length l sz

/-- The `as_completed` loop of `batch_request`: process the batch responses in
completion order `order` (a list of 1-based batch numbers).  `send` models
`_send_single_batch`, with `none` for a raised exception (connection error or
`raise_for_status` on the batch envelope); `future.result()` re-raises it, so
one failure aborts the whole loop. -/
def sendResults (send : List Request → Option (List Resp))
    (batches : List (List Request)) : List Nat → Option (List (Nat × List Resp))
  | [] => Option.some []
  | bn :: rest =>
    match send (batches.getD (bn - 1) []) with
    | Option.none => Option.none
    | Option.some rs =>
      match sendResults send batches rest with
      | Option.none => Option.none
      | Option.some acc => Option.some ((bn, rs) :: acc)

/-- `batch_request(batch_requests, batch_size, max_workers)`: split into
batches, send them (completion order `order`), and on success reassemble the
per-batch responses strictly by ascending batch number.  Any exception is
caught by the surrounding handler and the whole call returns `None`. -/
def batch_request (batch_requests : List Request) (batch_size : Nat)
    (send : List Request → Option (List Resp)) (order : List Nat) :
    Option (List Resp) :=
  let batches := chunkList batch_requests batch_size
  let num_batches := batches.length
  match sendResults send batches order with
  | Option.none => Option.none
  | Option.some results_by_batch =>
    Option.some
      (((List.range num_batches).map (fun k => k + 1)).foldl
        (fun acc bn => acc ++ ((results_by_batch.lookup bn).getD [])) [])

/-- Every operation group lands whole inside a single batch. -/
def groupsIntact (groups batches : List (List Request)) : Prop :=
  ∀ g ∈ groups, ∃ b ∈ batches, ∀ r ∈ g, r ∈ b

instance (groups batches : List (List Request)) :
    Decidable (groupsIntact groups batches) := by
  unfold groupsIntact
  infer_instance

/-- Erase the local operation id of a request, keeping verb, target and body:
the observable shape of the operation. -/
def opShape (r : Request) : String × String × Body :=
  (r.method, r.url, r.body)

/-! Concrete fixtures used by witnesses and counterexamples. -/

/-- Geometry of the cached and desired Thing `A`. -/
def geomA : Geom := Geom.point 0 0

/-- Geometry of the cached and desired Thing `B`. -/
def geomB : Geom := Geom.point 1 1

/-- Desired Thing `A`: cached, unchanged geometry, no datastreams (its
operation group has one operation). -/
def thingA : Thing :=
  { name := "A", location := geomA, properties := [], datastreams := [] }

/-- Desired Thing `B`: cached, unchanged geometry, one datastream (its
operation group has two operations). -/
def thingB : Thing :=
  { name := "B", location := geomB, properties := [],
    datastreams := [{ payload := "depth", thing := Option.none }] }

/-- Cache holding both `A` and `B`. -/
def cacheAB : Cache :=
  [("A", { id := "10", properties := [],
           locations := [{ iotId := "100", geom := Option.some geomA }] }),
   ("B", { id := "11", properties := [],
           locations := [{ iotId := "101", geom := Option.some geomB }] })]

/-- A desired Thing that also exists remotely. -/
def thingN1 : Thing :=
  { name := "N1", location := Geom.point 2 2, properties := [], datastreams := [] }

/-- The remote snapshot of `N1`, as a successful bulk fetch would return it. -/
def fetchedN1 : FetchedThing :=
  { name := "N1", iotId := "5", properties := [],
    locations := [{ iotId := "50", geom := Option.some (Geom.point 2 2) }] }

/-- The cache entry of `N1` used by the reconciler witnesses. -/
def entryW : CacheEntry :=
  { id := "5", properties := [("foo", "bar")],
    locations := [{ iotId := "50", geom := Option.some (Geom.point 3 4) }] }

/-- A one-entry cache holding `N1`. -/
def cacheW : Cache := [("N1", entryW)]

/-- A desired `N1` whose geometry differs from the cached one. -/
def thingW : Thing :=
  { name := "N1", location := Geom.point 9 9, properties := [("p", "q")],
    datastreams := [{ payload := "depth", thing := Option.none }] }

/-- A desired Thing absent from `cacheW`. -/
def thingN2 : Thing :=
  { name := "N2", location := Geom.point 7 7, properties := [("p", "q")],
    datastreams := [{ payload := "depth", thing := Option.none }] }

/-- First dispatched operation of the dispatcher fixtures. -/
def rwA : Request :=
  { id := "1", method := "patch", url := "Things(10)", body := Body.props [] }

/-- Second dispatched operation of the dispatcher fixtures. -/
def rwB : Request :=
  { id := "2", method := "post", url := "Datastreams",
    body := Body.datastream { payload := "d", thing := Option.some "10" } }

/-- A transport that fails on the batch holding `rwA` and succeeds elsewhere. -/
def sendCx : List Request → Option (List Resp) :=
  fun b =>
    if b = [rwA] then Option.none
    else Option.some [{ id := "2", status := 201, body := "" }]

/-- An infallible transport answering one 200 per operation. -/
def sendOk : List Request → List Resp :=
  fun b => b.map (fun r => { id := r.id, status := 200, body := "" })

/-! Frame lemmas: the threaded cache comes back unchanged. -/

theorem prepare_thing_requests_cache (td : Thing) (cache : Cache) (ctr : Nat) :
    (prepare_thing_requests td cache ctr).2.2.2 = cache := by
  unfold prepare_thing_requests
  cases cache.lookup td.name <;> rfl

theorem prepare_all_requests_cache (things : List Thing) (cache : Cache) (ctr : Nat) :
    (prepare_all_requests things cache ctr).2.2 = cache := by
  induction things generalizing cache ctr with
  | nil => rfl
  | cons td rest ih =>
    simp only [prepare_all_requests]
    rw [prepare_thing_requests_cache]
    exact ih cache _

theorem prepare_thing_groups_cache (things : List Thing) (cache : Cache) (ctr : Nat) :
    (prepare_thing_groups things cache ctr).2.2 = cache := by
  induction things generalizing cache ctr with
  | nil => rfl
  | cons td rest ih =>
    simp only [prepare_thing_groups]
    rw [prepare_thing_requests_cache]
    exact ih cache _

/-- The flat operation stream is the concatenation of the per-Thing groups. -/
theorem prepare_all_eq_flatten_groups (things : List Thing) (cache : Cache) (ctr : Nat) :
    (prepare_all_requests things cache ctr).1
      = (prepare_thing_groups things cache ctr).1.flatten := by
  induction things generalizing cache ctr with
  | nil => rfl
  | cons td rest ih =>
    simp only [prepare_all_requests, prepare_thing_groups, List.flatten_cons]
    rw [ih]

/-! Shape lemmas for the pieces of an operation group. -/

theorem post_datastream_requests_shape (tid : String) (dss : List Datastream) (ctr : Nat) :
    (post_datastream_requests tid dss ctr).1.map opShape
      = dss.map (fun ds =>
          ("post", "Datastreams", Body.datastream { ds with thing := Option.some tid })) := by
  induction dss generalizing ctr with
  | nil => rfl
  | cons ds rest ih =>
    simp only [post_datastream_requests, List.map_cons]
    rw [ih]
    rfl

theorem patch_location_requests_shape (cached : CacheEntry) (nw : Geom) (ctr : Nat) :
    (patch_location_requests cached nw ctr).1.map opShape
      = (match cached.locations with
         | [] => []
         | old :: _ =>
           if geometry_changed (Option.some old) nw then
             [("patch", "Locations(" ++ old.iotId ++ ")", Body.location nw)]
           else []) := by
  unfold patch_location_requests
  cases cached.locations with
  | nil => rfl
  | cons old rest =>
    by_cases h : geometry_changed (Option.some old) nw = true
    · simp [h, opShape]
    · simp [Bool.not_eq_true] at h
      simp [h, opShape]

theorem post_datastream_requests_no_thing_create (tid : String) (dss : List Datastream)
    (ctr : Nat) :
    (post_datastream_requests tid dss ctr).1.any isThingCreate = false := by
  induction dss generalizing ctr with
  | nil => rfl
  | cons ds rest ih =>
    simp only [post_datastream_requests, List.any_cons, ih]
    rfl

theorem post_datastream_requests_no_location (tid : String) (dss : List Datastream)
    (ctr : Nat) :
    (post_datastream_requests tid dss ctr).1.any isLocationOp = false := by
  induction dss generalizing ctr with
  | nil => rfl
  | cons ds rest ih =>
    simp only [post_datastream_requests, List.any_cons, ih]
    rfl

theorem post_datastream_requests_filter_location (tid : String) (dss : List Datastream)
    (ctr : Nat) :
    (post_datastream_requests tid dss ctr).1.filter isLocationOp = [] := by
  induction dss generalizing ctr with
  | nil => rfl
  | cons ds rest ih =>
    simp only [post_datastream_requests, List.filter_cons, ih]
    rfl

theorem patch_location_requests_no_thing_create (cached : CacheEntry) (nw : Geom)
    (ctr : Nat) :
    (patch_location_requests cached nw ctr).1.any isThingCreate = false := by
  unfold patch_location_requests
  cases cached.locations with
  | nil => rfl
  | cons old rest =>
    by_cases h : geometry_changed (Option.some old) nw = true
    · simp [h, isThingCreate]
    · simp [Bool.not_eq_true] at h
      simp [h]

/-! Dispatcher lemmas. -/

theorem sendResults_total (send : List Request → List Resp)
    (batches : List (List Request)) (order : List Nat) :
    sendResults (fun b => Option.some (send b)) batches order
      = Option.some (order.map (fun bn => (bn, send (batches.getD (bn - 1) [])))) := by
  induction order with
  | nil => rfl
  | cons bn rest ih => simp [sendResults, ih]

theorem sendResults_none (send : List Request → Option (List Resp))
    (batches : List (List Request)) (order : List Nat)
    (h : ∃ bn ∈ order, send (batches.getD (bn - 1) []) = Option.none) :
    sendResults send batches order = Option.none := by
  induction order with
  | nil =>
    rcases h with ⟨bn, hbn, _⟩
    cases hbn
  | cons b rest ih =>
    rcases h with ⟨bn, hbn, hsend⟩
    unfold sendResults
    rcases List.mem_cons.mp hbn with hb | hmem
    · rw [hb] at hsend
      rw [hsend]
    · cases hs : send (batches.getD (b - 1) []) with
      | none => rfl
      | some rs => rw [ih ⟨bn, hmem, hsend⟩]

theorem lookup_map_pair {β : Type} (f : Nat → β) (order : List Nat) (bn : Nat)
    (h : bn ∈ order) :
    (order.map (fun i => (i, f i))).lookup bn = Option.some (f bn) := by
  induction order with
  | nil => cases h
  | cons i rest ih =>
    by_cases hbi : bn = i
    · subst hbi
      simp [List.lookup]
    · have hmem : bn ∈ rest := by
        rcases List.mem_cons.mp h with h1 | h2
        · exact absurd h1 hbi
        · exact h2
      have hfalse : (bn == i) = false := by simpa using hbi
      simp only [List.map_cons, List.lookup, hfalse]
      exact ih hmem

theorem foldl_append_flatten {β : Type} (ns : List Nat) (g : Nat → List β)
    (init : List β) :
    ns.foldl (fun acc bn => acc ++ g bn) init = init ++ (ns.map g).flatten := by
  induction ns generalizing init with
  | nil => simp
  | cons n rest ih => simp [List.foldl_cons, ih, List.append_assoc]

theorem range_map_getD {α : Type} (l : List α) (d : α) :
    (List.range l.length).map (fun k => l.getD k d) = l := by
  induction l with
  | nil => rfl
  | cons x xs ih =>
    rw [List.length_cons, List.range_succ_eq_map, List.map_cons, List.map_map]
    simp only [Function.comp_def, List.getD_cons_zero, List.getD_cons_succ,
      Nat.succ_eq_add_one]
    rw [ih]

theorem map_enumFrom_indep {α β : Type} (l : List α) (n : Nat) (f : Nat × α → β)
    (g : α → β) (h : ∀ i x, f (i, x) = g x) :
    (List.enumFrom n l).map f = l.map g := by
  induction l generalizing n with
  | nil => rfl
  | cons x xs ih => simp [List.enumFrom, h, ih]

/-! Claim theorems. -/

/-- C4: a desired entity whose name is in the cache never yields a deep-insert
create (a `POST` to `Things`); one whose name is absent yields exactly one
operation, the deep-insert `POST` tagged `thing_<name>` — no `PATCH` on any
remote id and no separate per-datastream operation. -/
theorem reconcile_create_iff_absent (td : Thing) (cache : Cache) (ctr : Nat) :
    ((prepare_thing_requests td cache ctr).1.any isThingCreate)
        = (cache.lookup td.name).isNone
  ∧ (cache.lookup td.name = Option.none →
      (prepare_thing_requests td cache ctr).1
        = [{ id := "thing_" ++ td.name, method := "post", url := "Things",
             body := Body.thing
               { td with properties := dictSet td.properties "state" "operative" } }]) := by
  cases hcl : cache.lookup td.name with
  | none =>
    constructor
    · simp only [prepare_thing_requests, hcl]
      rfl
    · intro
      simp only [prepare_thing_requests, hcl]
  | some cached =>
    constructor
    · simp only [prepare_thing_requests, hcl, Option.isNone_some, List.any_cons,
        List.any_append, post_datastream_requests_no_thing_create,
        patch_location_requests_no_thing_create]
      rfl
    · intro hcontra
      exact Option.noConfusion hcontra

/-- C4 witness: at a concrete cached Thing no deep-insert create appears, and
at a concrete uncached Thing the output is exactly the one deep-insert. -/
theorem reconcile_create_iff_absent_witness :
    ((prepare_thing_requests thingN2 cacheW 0).1.any isThingCreate)
        = (cacheW.lookup thingN2.name).isNone
  ∧ (prepare_thing_requests thingN2 cacheW 0).1
      = [{ id := "thing_" ++ thingN2.name, method := "post", url := "Things",
           body := Body.thing
             { thingN2 with
                properties := dictSet thingN2.properties "state" "operative" } }] := by
  have h := reconcile_create_iff_absent thingN2 cacheW 0
  exact ⟨h.1, h.2 (by decide)⟩

/-- C10: for an entity present in the cache, the `PATCH Things(id)` body is
the cached properties with `state` set to `operative`; the desired entity's
own properties are not part of any emitted operation in this branch, so
changing them changes nothing. -/
theorem patch_body_from_cached_properties (td : Thing) (cache : Cache) (ctr : Nat)
    (e : CacheEntry) (p : PropMap) (h : cache.lookup td.name = Option.some e) :
    (∃ rest, (prepare_thing_requests td cache ctr).1
        = { id := toString (ctr + 1), method := "patch",
            url := "Things(" ++ e.id ++ ")",
            body := Body.props (dictSet e.properties "state" "operative") } :: rest)
  ∧ prepare_thing_requests { td with properties := p } cache ctr
      = prepare_thing_requests td cache ctr := by
  constructor
  · simp only [prepare_thing_requests, h]
    exact ⟨_, rfl⟩
  · have hname : ({ td with properties := p } : Thing).name = td.name := rfl
    simp only [prepare_thing_requests, hname, h]

/-- C10 witness: the concrete cached `N1` gets a `PATCH` whose body is the
cached properties plus `state = operative`, and swapping the desired
properties changes nothing. -/
theorem patch_body_from_cached_properties_witness :
    (∃ rest, (prepare_thing_requests thingW cacheW 0).1
        = { id := toString (0 + 1), method := "patch",
            url := "Things(" ++ entryW.id ++ ")",
            body := Body.props (dictSet entryW.properties "state" "operative") } :: rest)
  ∧ prepare_thing_requests { thingW with properties := [("x", "y")] } cacheW 0
      = prepare_thing_requests thingW cacheW 0 :=
  patch_body_from_cached_properties thingW cacheW 0 entryW [("x", "y")] (by decide)

/-- C7: for an entity present in the cache whose entry has a first cached
location with geometry `g`, a `PATCH` on that location id is emitted exactly
when `g` structurally differs from the desired geometry; when they are equal
no location operation is emitted. -/
theorem location_patch_iff_geometry_changed (td : Thing) (cache : Cache) (ctr : Nat)
    (e : CacheEntry) (l : CachedLocation) (ls : List CachedLocation) (g : Geom)
    (hc : cache.lookup td.name = Option.some e)
    (hl : e.locations = l :: ls) (hg : l.geom = Option.some g) :
    ((prepare_thing_requests td cache ctr).1.any isLocationOp)
        = decide (g ≠ td.location)
  ∧ (g ≠ td.location →
      (prepare_thing_requests td cache ctr).1.filter isLocationOp
        = [{ id := toString (ctr + 2), method := "patch",
             url := "Locations(" ++ l.iotId ++ ")",
             body := Body.location td.location }]) := by
  have hchanged : ∀ c : Nat,
      patch_location_requests e td.location c
        = if decide (g ≠ td.location) then
            ([{ id := (next_id c).1, method := "patch",
                url := "Locations(" ++ l.iotId ++ ")",
                body := Body.location td.location }], (next_id c).2)
          else ([], c) := by
    intro c
    unfold patch_location_requests
    rw [hl]
    simp only [geometry_changed, hg, Option.getD_some]
  constructor
  · simp only [prepare_thing_requests, hc, List.any_cons, List.any_append,
      post_datastream_requests_no_location, hchanged]
    by_cases hne : g ≠ td.location
    · simp [hne, isLocationOp]
    · simp [hne, isLocationOp]
  · intro hne
    simp only [prepare_thing_requests, hc, List.filter_cons, List.filter_append,
      post_datastream_requests_filter_location, hchanged, if_pos (decide_eq_true hne)]
    simp [isLocationOp, next_id]

/-- C7 witness: the concrete cached `N1` has geometry `(3,4)` while the
desired geometry is `(9,9)`, so exactly one `PATCH` on location id 50 is
emitted. -/
theorem location_patch_iff_geometry_changed_witness :
    ((prepare_thing_requests thingW cacheW 0).1.any isLocationOp)
        = decide (Geom.point 3 4 ≠ thingW.location)
  ∧ (prepare_thing_requests thingW cacheW 0).1.filter isLocationOp
      = [{ id := toString (0 + 2), method := "patch",
           url := "Locations(" ++ "50" ++ ")",
           body := Body.location thingW.location }] := by
  have h := location_patch_iff_geometry_changed thingW cacheW 0 entryW
    { iotId := "50", geom := Option.some (Geom.point 3 4) } [] (Geom.point 3 4)
    (by decide) (by decide) rfl
  exact ⟨h.1, h.2 (by decide)⟩

/-- C6: the obsolescence marker emits, in cache order, exactly one `PATCH`
per cached name not in the desired set — its body the cached properties with
`state` set to `obsolete` — and nothing for names in the desired set. -/
theorem mark_obsolete_exactly_stale (cache : Cache) (active : List String) :
    (mark_obsolete_requests cache active).1.map opShape
      = (cache.filter (fun p => !(active.contains p.1))).map
          (fun p => ("patch", "Things(" ++ p.2.id ++ ")",
                     Body.props (dictSet p.2.properties "state" "obsolete"))) := by
  unfold mark_obsolete_requests
  simp only [List.enum]
  rw [List.map_map,
    map_enumFrom_indep _ _ _
      (fun q : String × String × PropMap =>
        ("patch", "Things(" ++ q.1 ++ ")",
          Body.props (dictSet q.2.2 "state" "obsolete")))
      (fun i x => rfl),
    List.map_map]
  rfl

/-- C8: the shapes (method, url, body) of the operations emitted by the
reconciliation pass are a function of the desired entities and the cache
alone — in particular independent of the id-counter state, so two runs over
the same inputs emit identical operation bodies. -/
theorem reconciliation_deterministic_bodies (things : List Thing) (cache : Cache)
    (c1 c2 : Nat) :
    (prepare_all_requests things cache c1).1.map opShape
      = (prepare_all_requests things cache c2).1.map opShape := by
  induction things generalizing cache c1 c2 with
  | nil => rfl
  | cons td rest ih =>
    have hshape : (prepare_thing_requests td cache c1).1.map opShape
        = (prepare_thing_requests td cache c2).1.map opShape := by
      cases hcl : cache.lookup td.name with
      | none => simp only [prepare_thing_requests, hcl]
      | some cached =>
        simp only [prepare_thing_requests, hcl, List.map_cons, List.map_append]
        rw [patch_location_requests_shape, patch_location_requests_shape,
          post_datastream_requests_shape, post_datastream_requests_shape]
        rfl
    simp only [prepare_all_requests, List.map_append]
    rw [prepare_thing_requests_cache, prepare_thing_requests_cache, hshape,
      ih cache ((prepare_thing_requests td cache c1).2.2.1)
        ((prepare_thing_requests td cache c2).2.2.1)]

/-- C9: the in-memory things cache is read-only: reconciling one entity,
reconciling the whole desired set, and the obsolescence marking all return
the cache they received, unchanged. -/
theorem things_cache_unchanged (td : Thing) (things : List Thing) (cache : Cache)
    (ctr : Nat) (active : List String) :
    (prepare_thing_requests td cache ctr).2.2.2 = cache
  ∧ (prepare_all_requests things cache ctr).2.2 = cache
  ∧ (mark_obsolete_requests cache active).2 = cache :=
  ⟨prepare_thing_requests_cache td cache ctr,
   prepare_all_requests_cache things cache ctr, rfl⟩

/-- C5: for an infallible transport, whatever the completion order of the
workers (any permutation of the batch numbers), `batch_request` returns the
per-batch response lists concatenated strictly in ascending batch sequence
number — the submission order. -/
theorem batch_request_order_independent (reqs : List Request) (sz : Nat)
    (send : List Request → List Resp) (order : List Nat)
    (h : order.Perm ((List.range (chunkList reqs sz).length).map (fun k => k + 1))) :
    batch_request reqs sz (fun b => Option.some (send b)) order
      = Option.some (((chunkList reqs sz).map send).flatten) := by
  simp only [batch_request]
  rw [sendResults_total]
  dsimp only
  congr 1
  rw [foldl_append_flatten, List.nil_append]
  have hlookup :
      ((List.range (chunkList reqs sz).length).map (fun k => k + 1)).map
          (fun bn =>
            ((order.map (fun i =>
                (i, send ((chunkList reqs sz).getD (i - 1) [])))).lookup bn).getD [])
        = ((List.range (chunkList reqs sz).length).map (fun k => k + 1)).map
            (fun bn => send ((chunkList reqs sz).getD (bn - 1) [])) := by
    refine List.map_congr_left ?_
    intro bn hbn
    rw [lookup_map_pair (fun i => send ((chunkList reqs sz).getD (i - 1) [])) order bn
      (h.mem_iff.mpr hbn)]
    rfl
  rw [hlookup, List.map_map]
  have harg : ((fun bn => send ((chunkList reqs sz).getD (bn - 1) [])) ∘ fun k => k + 1)
      = fun k => send ((chunkList reqs sz).getD k []) := by
    funext k
    simp
  rw [harg,
    show (fun k => send ((chunkList reqs sz).getD k []))
      = send ∘ (fun k => (chunkList reqs sz).getD k []) from rfl,
    ← List.map_map, range_map_getD]

/-- C5 witness: two batches completing in reversed order still yield the
submission-order concatenation. -/
theorem batch_request_order_independent_witness :
    (([2, 1] : List Nat).Perm
        ((List.range (chunkList [rwA, rwB] 1).length).map (fun k => k + 1)))
  ∧ batch_request [rwA, rwB] 1 (fun b => Option.some (sendOk b)) [2, 1]
      = Option.some (((chunkList [rwA, rwB] 1).map sendOk).flatten) :=
  ⟨by decide, batch_request_order_independent [rwA, rwB] 1 sendOk [2, 1] (by decide)⟩

/-- C3 counterexample: with two one-operation batches where only the first
batch's send fails, `batch_request` returns `none` — the successfully sent
second batch's responses are not returned and no per-batch error record
exists, contrary to the claim that the dispatcher isolates the failure to
that batch and returns results for the remaining batches. -/
theorem batch_send_failure_counterexample :
    sendCx [rwB] = Option.some [{ id := "2", status := 201, body := "" }]
  ∧ batch_request [rwA, rwB] 1 sendCx [2, 1] = Option.none := by
  decide

/-- C3 amended: a transport-level failure of any single batch is caught by
the handler wrapped around the whole dispatch loop, so `batch_request`
returns `None` for the entire call: all batches' operations — including
those of batches that were sent successfully — are left unresolved, and no
per-batch error tagged with the batch number is produced. -/
theorem batch_send_failure_aborts_whole_request (reqs : List Request) (sz : Nat)
    (send : List Request → Option (List Resp)) (order : List Nat)
    (h : ∃ bn ∈ order, send ((chunkList reqs sz).getD (bn - 1) []) = Option.none) :
    batch_request reqs sz send order = Option.none := by
  simp only [batch_request]
  rw [sendResults_none send (chunkList reqs sz) order h]

/-- C3 witness: the amended statement at the concrete two-batch input. -/
theorem batch_send_failure_aborts_whole_request_witness :
    (∃ bn ∈ ([2, 1] : List Nat),
        sendCx ((chunkList [rwA, rwB] 1).getD (bn - 1) []) = Option.none)
  ∧ batch_request [rwA, rwB] 1 sendCx [2, 1] = Option.none :=
  ⟨by decide,
   batch_send_failure_aborts_whole_request [rwA, rwB] 1 sendCx [2, 1] (by decide)⟩

/-- C1: the batch planning performed before dispatch is a raw fixed-size
chunking of the flat operation stream; at the concrete input where the
operation groups have sizes 1 and 2 and `batch_size = 2`, the second group's
two operations land in different batches — a batch boundary falls inside an
operation group, contrary to the claim. -/
theorem batch_planner_splits_operation_group :
    ¬ groupsIntact (prepare_thing_groups [thingA, thingB] cacheAB 0).1
        (chunkList (prepare_all_requests [thingA, thingB] cacheAB 0).1 2) := by
  decide

/-- C2: a failed bulk snapshot fetch (`get_entities` returning `None`) yields
an empty cache indistinguishable from an empty remote store, and the run
proceeds: `process_things_batch` still builds a non-empty operation list
containing a deep-insert create for `N1` — an entity the remote store does
hold, as the successful-fetch variant shows — instead of aborting before any
write traffic. -/
theorem fetch_failure_does_not_abort_run :
    get_all_things_with_locations Option.none = []
  ∧ (process_things_batch_requests [thingN1] Option.none Option.none).any
      isThingCreate = true
  ∧ (process_things_batch_requests [thingN1] Option.none
      (Option.some [fetchedN1])).any isThingCreate = false := by
  decide

end HydraulicEngine
